import Mathlib

/-
Verification of the MongoDB persistence components:
a shallow embedding of `MongoDbConnectionResolver`, `MongoDbPersistence`
and `IdentifiableMongoDbPersistence` (TypeScript sources), with theorems
about URI composition, connection validation, paging, id assignment,
null-input handling, shape conversion and the clear operation.

Connection descriptors, credentials and documents are modelled as
insertion-ordered string-to-string association lists, mirroring the
JavaScript object maps used by `ConfigParams` / `StringValueMap`.
-/

namespace MongoSpec

/-- Insertion-ordered string-to-string map (JavaScript object semantics). -/
abbrev StrMap := List (String × String)

/-- Lookup of a key: the value stored under the key, or `none` (JS `null`). -/
def mapGet : StrMap → String → Option String
  | [], _ => none
  | (k, v) :: rest, key => if k = key then some v else mapGet rest key

/-- Assignment `m[key] = value`: overwrites in place if the key exists
(keeping its position, as a JS object does), otherwise appends. -/
def setKV : StrMap → String → String → StrMap
  | [], key, value => [(key, value)]
  | (k, v) :: rest, key, value =>
    if k = key then (k, value) :: rest else (k, v) :: setKV rest key value

/-- JS `delete m[key]` (also models `AnyValueMap.remove`). -/
def removeKey : StrMap → String → StrMap
  | [], _ => []
  | (k, v) :: rest, key =>
    if k = key then removeKey rest key else (k, v) :: removeKey rest key

/-- JS truthy-or on an optional string: `o || dflt`
(`null` and the empty string are falsy). -/
def jsOr (o : Option String) (dflt : String) : String :=
  match o with
  | some s => if s = "" then dflt else s
  | none => dflt

/-! ## ConnectionParams / CredentialParams getters

`ConnectionParams.getUri` is `getAsNullableString("uri")`,
`getHost` is `getAsNullableString("host") || getAsNullableString("ip")`,
`getPort` is `getAsInteger("port")` (0 when absent or non-numeric),
and `"database"` is read with `getAsNullableString`. -/

/-- `connection.getUri()`. -/
def getUri (c : StrMap) : Option String := mapGet c "uri"

/-- `connection.getHost()`: `host || ip` with JS truthiness. -/
def getHost (c : StrMap) : Option String :=
  match mapGet c "host" with
  | some h => if h = "" then mapGet c "ip" else some h
  | none => mapGet c "ip"

/-- Integer conversion of a stored string value, as `IntegerConverter`
performs it for the numeric strings that occur here: a non-empty string
of decimal digits parses to its value, anything else converts to null. -/
def strToNatJs (s : String) : Option Nat :=
  let ds := s.data
  if ds.isEmpty then none
  else if ds.all Char.isDigit then
    some (ds.foldl (fun n c => n * 10 + (c.toNat - Char.toNat '0')) 0)
  else none

/-- `connection.getPort()`: integer conversion with default 0. -/
def getPort (c : StrMap) : Nat :=
  match mapGet c "port" with
  | some s => (strToNatJs s).getD 0
  | none => 0

/-- `connection.getAsNullableString("database")`. -/
def getDatabase (c : StrMap) : Option String := mapGet c "database"

/-- `credential.getUsername()`. -/
def getUsername (c : StrMap) : Option String := mapGet c "username"

/-- `credential.getPassword()`. -/
def getPassword (c : StrMap) : Option String := mapGet c "password"

/-! ## MongoDbConnectionResolver -/

/-- Error codes of the `ConfigException`s raised by validation. -/
inductive ConfigErrCode where
  | NO_HOST
  | NO_PORT
  | NO_DATABASE
  | NO_CONNECTION
  deriving DecidableEq, Repr

/-- `MongoDbConnectionResolver.validateConnection`: a descriptor with a
non-null uri is accepted outright; otherwise host, port and database are
checked in that order. Returns the `ConfigException` code, or `none`. -/
def validateConnection (c : StrMap) : Option ConfigErrCode :=
  if (getUri c).isSome then none
  else if getHost c = none then some .NO_HOST
  else if getPort c = 0 then some .NO_PORT
  else if getDatabase c = none then some .NO_DATABASE
  else none

/-- `MongoDbConnectionResolver.validateConnections`: `NO_CONNECTION` for a
null or empty list, otherwise the first per-descriptor error. -/
def validateConnections (conns : Option (List StrMap)) : Option ConfigErrCode :=
  match conns with
  | none => some .NO_CONNECTION
  | some l =>
    if l.isEmpty then some .NO_CONNECTION
    else l.findSome? validateConnection

/-- The first loop of `composeUri`: the uri of the first descriptor whose
`getUri()` is truthy (non-null and non-empty), if any. -/
def firstTruthyUri : List StrMap → Option String
  | [] => none
  | c :: rest =>
    match getUri c with
    | some u => if u = "" then firstTruthyUri rest else some u
    | none => firstTruthyUri rest

/-- The `hosts` accumulation of `composeUri`: `host + ':' + port` for each
descriptor in order, comma-joined.  A null host stringifies to `"null"`
(JS string concatenation), and `getPort` never returns null so the port
separator is always emitted. -/
def hostsPart (conns : List StrMap) : String :=
  conns.foldl
    (fun hosts c =>
      let h := match getHost c with | some h => h | none => "null"
      let entry := h ++ ":" ++ toString (getPort c)
      if 0 < hosts.length then hosts ++ "," ++ entry else hosts ++ entry)
    ""

/-- The `database` accumulation of `composeUri`:
`database = database || connection.getAsNullableString("database")`
starting from the empty string.  `none` models the JS value `null`
(reached when the last fold step reads a null database). -/
def databaseFold (conns : List StrMap) : Option String :=
  conns.foldl
    (fun d c => match d with
      | some s => if s = "" then getDatabase c else some s
      | none => getDatabase c)
    (some "")

/-- The authentication part of `composeUri`: `username:password@` or
`username@` when the credential has a truthy username, else empty. -/
def authPart (credential : Option StrMap) : String :=
  match credential with
  | none => ""
  | some cred =>
    match getUsername cred with
    | some u =>
      if u = "" then ""
      else
        match getPassword cred with
        | some p => if p = "" then u ++ "@" else u ++ ":" ++ p ++ "@"
        | none => u ++ "@"
    | none => ""

/-- `ConfigParams.mergeConfigs(...connections)`: all key/value pairs set in
order; a repeated key keeps its first position (JS object assignment). -/
def mergeConfigs (maps : List StrMap) : StrMap :=
  maps.foldl (fun acc m => m.foldl (fun acc kv => setKV acc kv.1 kv.2) acc) []

/-- `options.override(credential)`: the credential's pairs set on top
(a null credential leaves the map unchanged). -/
def overrideWith (m : StrMap) (credential : Option StrMap) : StrMap :=
  match credential with
  | none => m
  | some cred => cred.foldl (fun acc kv => setKV acc kv.1 kv.2) m

/-- The query-parameter part of `composeUri`: merge all descriptors,
override with the credential, strip host/port/database/username/password,
serialize the remaining pairs as `key=value` joined by `&`, and prefix
with `?` when non-empty. -/
def paramsPart (conns : List StrMap) (credential : Option StrMap) : String :=
  let options := overrideWith (mergeConfigs conns) credential
  let options := removeKey options "host"
  let options := removeKey options "port"
  let options := removeKey options "database"
  let options := removeKey options "username"
  let options := removeKey options "password"
  let params := options.foldl
    (fun params kv =>
      let params := if 0 < params.length then params ++ "&" else params
      params ++ kv.1 ++ "=" ++ kv.2)
    ""
  if 0 < params.length then "?" ++ params else params

/-- The database segment: `'/' + database` when the folded database is a
non-empty string, empty when it is the empty string. -/
def dbSegment (conns : List StrMap) : String :=
  match databaseFold conns with
  | some d => if 0 < d.length then "/" ++ d else ""
  | none => ""

/-- `MongoDbConnectionResolver.composeUri`.  Returns `none` exactly when
the JS code throws: the database fold produced `null` and the code reads
`database.length` on it. -/
def composeUri (conns : List StrMap) (credential : Option StrMap) : Option String :=
  match firstTruthyUri conns with
  | some uri => some uri
  | none =>
    match databaseFold conns with
    | none => none
    | some database =>
      some ("mongodb://" ++ authPart credential ++ hostsPart conns ++
        (if 0 < database.length then "/" ++ database else "") ++
        paramsPart conns credential)

/-- Outcome of `MongoDbConnectionResolver.resolve` once the connection and
credential lookups have produced their results: a validation error, a
composed uri, or a thrown TypeError inside `composeUri`. -/
inductive ResolveOutcome where
  | ok (uri : String)
  | err (e : ConfigErrCode)
  | crash
  deriving DecidableEq, Repr

/-- The success path of `resolve`: validate the resolved connections, then
compose the uri from them and the looked-up credential. -/
def resolveOutcome (conns : List StrMap) (credential : Option StrMap) : ResolveOutcome :=
  match validateConnections (some conns) with
  | some e => .err e
  | none =>
    match composeUri conns credential with
    | some uri => .ok uri
    | none => .crash

/-! ## Persistence layer

Documents are `StrMap`s; the stored form carries its key under `"_id"`,
the public form under `"id"`.  The mongoose driver is an external
collaborator: its model state is the collection contents plus injectable
error outcomes for the find, count and remove calls. -/

/-- A JavaScript value handed through the conversion hooks: `null`, or a
document whose `toJSON` method may be present (mongoose documents carry
one, plain objects do not). -/
inductive JsVal where
  | null
  | doc (fields : StrMap) (hasToJSON : Bool)
  deriving DecidableEq, Repr

/-- Modelled from the spec: the schema's `toJSON` transform
(`DummyMongoDbSchema` is not under src).  "The primary key stored under
the driver-native primary-key field and exposed to callers under a
generic `id` field name": `ret.id = ret._id; delete ret._id; delete
ret.__v`. -/
def toJSONTransform (f : StrMap) : StrMap :=
  let ret := match mapGet f "_id" with
    | some v => setKV f "id" v
    | none => f
  removeKey (removeKey ret "_id") "__v"

/-- `MongoDbPersistence.convertToPublic`: `if (value && value.toJSON)
value = value.toJSON(); return value;`.  Serializing a mongoose document
applies the schema's transform and yields a plain object. -/
def convertToPublic : JsVal → JsVal
  | .null => .null
  | .doc f true => .doc (toJSONTransform f) false
  | .doc f false => .doc f false

/-- `MongoDbPersistence.convertFromPublic`: identity. -/
def convertFromPublic (value : StrMap) : StrMap := value

/-- `IdentifiableMongoDbPersistence.convertFromPublicPartial`: delegates
to `convertFromPublic`. -/
def convertFromPublicPartial (value : StrMap) : StrMap := convertFromPublic value

/-- Modelled from the spec: `PagingParams` (external collaborator) —
"optional skip count, optional take count, and a boolean flag indicating
whether a total result count should accompany the page". -/
structure PagingParams where
  skip : Option Int := none
  take : Option Int := none
  total : Bool := false
  deriving DecidableEq, Repr

/-- Modelled from the spec: `paging.getSkip(minSkip)` resolves the skip
with the supplied sentinel as default ("-1 as the default when paging or
skip is absent"). -/
def PagingParams.getSkip (p : PagingParams) (minSkip : Int) : Int :=
  p.skip.getD minSkip

/-- Modelled from the spec: `paging.getTake(maxTake)` — "optional take
count (defaults to engine's configured max page size)". -/
def PagingParams.getTake (p : PagingParams) (maxTake : Int) : Int :=
  p.take.getD maxTake

/-- `DataPage`: the page items plus an optional total. -/
structure DataPage where
  pageData : List JsVal
  total : Option Nat := none
  deriving DecidableEq, Repr

/-- Modelled from the spec: the mongoose model handle (external driver) —
collection contents in natural order, plus the outcome each driver call
would report (`none` = success). -/
structure ModelState where
  docs : List StrMap
  findErr : Option String := none
  countErr : Option String := none
  removeErr : Option String := none
  deriving DecidableEq, Repr

/-- The query statement built by `getPageByFilter`: which cursor clauses
were emitted (`statement.skip` only under `skip >= 0`, `statement.limit`
always). -/
structure FindStatement where
  skipClause : Option Int := none
  limitClause : Option Int := none
  deriving DecidableEq, Repr

/-- The statement-building lines of `getPageByFilter`:
`paging = paging || new PagingParams(); skip = paging.getSkip(-1);
take = paging.getTake(this._maxPageSize);
if (skip >= 0) statement.skip(skip); statement.limit(take);`. -/
def pageStatement (paging : Option PagingParams) (maxPageSize : Int) : FindStatement :=
  let p := paging.getD {}
  let skip := p.getSkip (-1)
  let take := p.getTake maxPageSize
  { skipClause := if 0 ≤ skip then some skip else none
    limitClause := some take }

/-- Modelled from the spec: cursor execution by the external driver —
filter the collection, apply the skip clause when present, then the limit
clause. -/
def execStatement (m : ModelState) (pred : StrMap → Bool) (st : FindStatement) :
    Except String (List StrMap) :=
  match m.findErr with
  | some e => .error e
  | none =>
    let found := m.docs.filter pred
    let found := match st.skipClause with
      | some s => found.drop s.toNat
      | none => found
    let found := match st.limitClause with
      | some n => found.take n.toNat
      | none => found
    .ok found

/-- Modelled from the spec: `model.count(filter)` by the external driver. -/
def execCount (m : ModelState) (pred : StrMap → Bool) : Except String Nat :=
  match m.countErr with
  | some e => .error e
  | none => .ok (m.docs.filter pred).length

/-- `IdentifiableMongoDbPersistence.getPageByFilter`: builds and executes
the find statement; on success converts the items; when `paging.total` is
truthy issues the count query over the same filter and attaches the count
as the page total, failing wholesale if the count fails.  The second
component reports whether the count query was issued. -/
def getPageByFilter (m : ModelState) (pred : StrMap → Bool)
    (paging : Option PagingParams) (maxPageSize : Int) :
    Except String DataPage × Bool :=
  let pagingEnabled := (paging.getD {}).total
  let st := pageStatement paging maxPageSize
  match execStatement m pred st with
  | .error e => (.error e, false)
  | .ok items =>
    let pubItems := items.map (fun f => convertToPublic (.doc f true))
    if pagingEnabled then
      match execCount m pred with
      | .error e => (.error e, true)
      | .ok count => (.ok { pageData := pubItems, total := some count }, true)
    else
      (.ok { pageData := pubItems, total := none }, false)

/-- How a mutation call ends: the callback was invoked with `(err, result)`,
or there was no callback and the operation returned silently, or a missing
callback was invoked anyway (JS TypeError). -/
inductive MutOutcome where
  | delivered (err : Option String) (result : JsVal)
  | silent
  | crashed
  deriving DecidableEq, Repr

/-- The id-assignment lines shared by `create` and `set`:
`newItem = _.omit(item, 'id'); newItem._id = item.id || IdGenerator.nextLong();`
with the fresh generator output passed in as `genId`. -/
def assignNewItem (it : StrMap) (genId : String) : StrMap :=
  setKV (removeKey it "id") "_id" (jsOr (mapGet it "id") genId)

/-- `IdentifiableMongoDbPersistence.create`.  A null item invokes the
callback unconditionally (`callback(null, null)`), so a missing callback
crashes; otherwise the assigned document is inserted and the driver's
callback — which also dereferences `callback` unconditionally — delivers
the converted created document. -/
def create (m : ModelState) (item : Option StrMap) (genId : String) (cb : Bool) :
    MutOutcome × ModelState :=
  match item with
  | none => (if cb then .delivered none .null else .crashed, m)
  | some it =>
    let newItem := convertFromPublic (assignNewItem it genId)
    let st := { m with docs := m.docs ++ [newItem] }
    (if cb then .delivered none (convertToPublic (.doc newItem true)) else .crashed, st)

/-- `IdentifiableMongoDbPersistence.set`.  A null item completes with a
null result, tolerating a missing callback; otherwise
`findOneAndUpdate({_id}, newItem, {new: true, upsert: true})` replaces the
matching document or inserts, and the callback (when present) receives
the converted post-write document. -/
def set (m : ModelState) (item : Option StrMap) (genId : String) (cb : Bool) :
    MutOutcome × ModelState :=
  match item with
  | none => (if cb then .delivered none .null else .silent, m)
  | some it =>
    let newItem := convertFromPublic (assignNewItem it genId)
    let key := mapGet newItem "_id"
    let docs :=
      if m.docs.any (fun d => mapGet d "_id" = key) then
        m.docs.map (fun d => if mapGet d "_id" = key then newItem else d)
      else m.docs ++ [newItem]
    (if cb then .delivered none (convertToPublic (.doc newItem true)) else .silent,
     { m with docs := docs })

/-- `IdentifiableMongoDbPersistence.update`.  A null item or null id
completes with a null result, tolerating a missing callback; otherwise
`findByIdAndUpdate(item.id, newItem, {new: true})` rewrites the matching
document's fields (no upsert) and returns the post-write document, or
null when no document matches. -/
def update (m : ModelState) (item : Option StrMap) (cb : Bool) :
    MutOutcome × ModelState :=
  match item with
  | none => (if cb then .delivered none .null else .silent, m)
  | some it =>
    match mapGet it "id" with
    | none => (if cb then .delivered none .null else .silent, m)
    | some id =>
      let newItem := convertFromPublic (removeKey it "id")
      if m.docs.any (fun d => mapGet d "_id" = some id) then
        let upd := setKV newItem "_id" id
        let docs := m.docs.map (fun d => if mapGet d "_id" = some id then upd else d)
        (if cb then .delivered none (convertToPublic (.doc upd true)) else .silent,
         { m with docs := docs })
      else
        (if cb then .delivered none (convertToPublic .null) else .silent, m)

/-- `IdentifiableMongoDbPersistence.updatePartially`.  Null data or a null
id completes with a null result, tolerating a missing callback; otherwise
`findByIdAndUpdate(id, {$set: newItem}, {new: true})` merges the supplied
fields into the matching document. -/
def updatePartially (m : ModelState) (id : Option String) (data : Option StrMap)
    (cb : Bool) : MutOutcome × ModelState :=
  match data, id with
  | none, _ => (if cb then .delivered none .null else .silent, m)
  | some _, none => (if cb then .delivered none .null else .silent, m)
  | some d, some theId =>
    let newItem := convertFromPublicPartial d
    if m.docs.any (fun dd => mapGet dd "_id" = some theId) then
      let merge := fun (dd : StrMap) => newItem.foldl (fun acc kv => setKV acc kv.1 kv.2) dd
      let docs := m.docs.map (fun dd => if mapGet dd "_id" = some theId then merge dd else dd)
      let upd := (docs.filter (fun dd => mapGet dd "_id" = some theId)).headD []
      (if cb then .delivered none (convertToPublic (.doc upd true)) else .silent,
       { m with docs := docs })
    else
      (if cb then .delivered none (convertToPublic .null) else .silent, m)

/-- `IdentifiableMongoDbPersistence.deleteById`.  No null guard of its
own: `findByIdAndRemove(id)` is always issued; a null id matches no
stored document (every stored document has a primary key), so the call
completes with a null result.  The callback is guarded. -/
def deleteById (m : ModelState) (id : Option String) (cb : Bool) :
    MutOutcome × ModelState :=
  let hit := match id with
    | none => none
    | some i => m.docs.find? (fun d => mapGet d "_id" = some i)
  match hit with
  | none => (if cb then .delivered none (convertToPublic .null) else .silent, m)
  | some old =>
    let docs := m.docs.filter (fun d => ¬ mapGet d "_id" = mapGet old "_id")
    (if cb then .delivered none (convertToPublic (.doc old true)) else .silent,
     { m with docs := docs })

/-- The errors `MongoDbPersistence.clear` can report: the immediate
`Error('Collection name is not defined')`, or a `ConnectionException`
with code `CONNECT_FAILED` wrapping the driver failure as its cause. -/
inductive ClearErr where
  | collectionNotDefined
  | connectFailed (cause : String)
  deriving DecidableEq, Repr

/-- `MongoDbPersistence.clear`: fails immediately when no collection name
is bound, touching no state; otherwise `model.remove({})` removes every
document, any driver failure being wrapped as `CONNECT_FAILED` with the
original cause preserved. -/
def clear (collection : Option String) (m : ModelState) :
    Option ClearErr × ModelState :=
  match collection with
  | none => (some .collectionNotDefined, m)
  | some _ =>
    match m.removeErr with
    | some e => (some (.connectFailed e), m)
    | none => (none, { m with docs := [] })

/-! ## Concrete inputs used by the examples and witnesses -/

/-- Descriptor `host="localhost", port=27017, database="test"`. -/
def localhostConn : StrMap := [("host", "localhost"), ("port", "27017"), ("database", "test")]

/-- Descriptor `host="a", port=27017, database="test"`. -/
def connA : StrMap := [("host", "a"), ("port", "27017"), ("database", "test")]

/-- Descriptor `host="b", port=27018, database="test"`. -/
def connB : StrMap := [("host", "b"), ("port", "27018"), ("database", "test")]

/-- Credential `username="u", password="p"`. -/
def credUP : StrMap := [("username", "u"), ("password", "p")]

/-- A descriptor whose only field is a uri set to the empty string. -/
def emptyUriConn : StrMap := [("uri", "")]

/-- A collection of five stored documents, all matching a trivial filter. -/
def fiveDocs : ModelState :=
  { docs := [[("_id", "1")], [("_id", "2")], [("_id", "3")], [("_id", "4")], [("_id", "5")]] }

/-- The number of items on a successfully returned page (0 on error). -/
def okPageSize : Except String DataPage × Bool → Nat
  | (.ok p, _) => p.pageData.length
  | (.error _, _) => 0

/-- The converted item list `getPageByFilter` returns on success: filter,
apply the emitted skip/limit clauses, convert each document. -/
def pageItems (m : ModelState) (pred : StrMap → Bool)
    (paging : Option PagingParams) (maxPageSize : Int) : List JsVal :=
  let st := pageStatement paging maxPageSize
  let found := m.docs.filter pred
  let found := match st.skipClause with
    | some s => found.drop s.toNat
    | none => found
  let found := match st.limitClause with
    | some n => found.take n.toNat
    | none => found
  found.map (fun f => convertToPublic (.doc f true))

/-! ## Helper lemmas -/

theorem mapGet_setKV_self (m : StrMap) (k v : String) :
    mapGet (setKV m k v) k = some v := by
  induction m with
  | nil => simp [setKV, mapGet]
  | cons kv rest ih =>
    obtain ⟨a, b⟩ := kv
    by_cases h : a = k
    · simp [setKV, h, mapGet]
    · simp [setKV, h, mapGet, ih]

theorem mapGet_setKV_ne (m : StrMap) (k v k' : String) (h : k' ≠ k) :
    mapGet (setKV m k v) k' = mapGet m k' := by
  induction m with
  | nil =>
    simp only [setKV, mapGet]
    rw [if_neg (fun hh : k = k' => h hh.symm)]
  | cons kv rest ih =>
    obtain ⟨a, b⟩ := kv
    by_cases ha : a = k
    · subst ha
      simp only [setKV, if_pos rfl, mapGet]
      rw [if_neg (fun hh : a = k' => h hh.symm), if_neg (fun hh : a = k' => h hh.symm)]
    · simp only [setKV, if_neg ha, mapGet]
      by_cases hk' : a = k'
      · rw [if_pos hk', if_pos hk']
      · rw [if_neg hk', if_neg hk', ih]

theorem mapGet_removeKey_self (m : StrMap) (k : String) :
    mapGet (removeKey m k) k = none := by
  induction m with
  | nil => simp [removeKey, mapGet]
  | cons kv rest ih =>
    obtain ⟨a, b⟩ := kv
    by_cases h : a = k
    · simp [removeKey, h, ih]
    · simp [removeKey, h, mapGet, ih]

theorem mapGet_removeKey_ne (m : StrMap) (k k' : String) (h : k' ≠ k) :
    mapGet (removeKey m k) k' = mapGet m k' := by
  induction m with
  | nil => simp [removeKey]
  | cons kv rest ih =>
    obtain ⟨a, b⟩ := kv
    by_cases ha : a = k
    · subst ha
      simp only [removeKey, if_pos rfl, if_true, mapGet]
      rw [ih, if_neg (fun hh : a = k' => h hh.symm)]
    · simp only [removeKey, if_neg ha, mapGet]
      by_cases hk' : a = k'
      · rw [if_pos hk', if_pos hk']
      · rw [if_neg hk', if_neg hk', ih]

theorem firstTruthyUri_eq_none (conns : List StrMap)
    (h : ∀ c ∈ conns, getUri c = none) : firstTruthyUri conns = none := by
  induction conns with
  | nil => rfl
  | cons c rest ih =>
    have hc := h c (List.mem_cons_self c rest)
    simp only [firstTruthyUri, hc]
    exact ih (fun d hd => h d (List.mem_cons_of_mem c hd))

theorem firstTruthyUri_first (pre : List StrMap) (c : StrMap) (post : List StrMap)
    (u : String) (hpre : ∀ d ∈ pre, getUri d = none ∨ getUri d = some "")
    (hc : getUri c = some u) (hu : u ≠ "") :
    firstTruthyUri (pre ++ c :: post) = some u := by
  induction pre with
  | nil =>
    simp only [List.nil_append, firstTruthyUri, hc]
    rw [if_neg hu]
  | cons d rest ih =>
    have hd := hpre d (List.mem_cons_self d rest)
    have hrest := fun x hx => hpre x (List.mem_cons_of_mem d hx)
    rcases hd with hd | hd
    · simpa only [List.cons_append, firstTruthyUri, hd] using ih hrest
    · simpa only [List.cons_append, firstTruthyUri, hd, if_pos rfl] using ih hrest

theorem toJSONTransform_no_id (f : StrMap) :
    mapGet (toJSONTransform f) "_id" = none := by
  simp only [toJSONTransform]
  rw [mapGet_removeKey_ne _ _ _ (by decide), mapGet_removeKey_self]

theorem toJSONTransform_id (f : StrMap) (v : String) (h : mapGet f "_id" = some v) :
    mapGet (toJSONTransform f) "id" = some v := by
  simp only [toJSONTransform, h]
  rw [mapGet_removeKey_ne _ _ _ (by decide), mapGet_removeKey_ne _ _ _ (by decide),
    mapGet_setKV_self]

theorem getPageByFilter_pageData (m : ModelState) (pred : StrMap → Bool)
    (paging : Option PagingParams) (maxPageSize : Int) (page : DataPage) (flag : Bool)
    (h : getPageByFilter m pred paging maxPageSize = (.ok page, flag)) :
    page.pageData = pageItems m pred paging maxPageSize := by
  simp only [getPageByFilter, execStatement, execCount] at h
  cases hf : m.findErr with
  | some e => rw [hf] at h; simp at h
  | none =>
    rw [hf] at h
    simp only [] at h
    by_cases ht : (paging.getD {}).total
    · rw [if_pos ht] at h
      cases hc : m.countErr with
      | some e => rw [hc] at h; simp at h
      | none =>
        rw [hc] at h
        simp only [Prod.mk.injEq] at h
        have := h.1
        rw [Except.ok.injEq] at this
        rw [← this]
        simp [pageItems]
    · rw [if_neg ht] at h
      simp only [Prod.mk.injEq] at h
      have := h.1
      rw [Except.ok.injEq] at this
      rw [← this]
      simp [pageItems]

theorem findSome?_validate_first (pre : List StrMap) (c : StrMap)
    (post : List StrMap) (e : ConfigErrCode)
    (hpre : ∀ d ∈ pre, validateConnection d = none)
    (hc : validateConnection c = some e) :
    (pre ++ c :: post).findSome? validateConnection = some e := by
  induction pre with
  | nil => simp [List.findSome?, hc]
  | cons d rest ih =>
    have hd := hpre d (List.mem_cons_self d rest)
    have hrest := fun x hx => hpre x (List.mem_cons_of_mem d hx)
    simpa [List.findSome?, hd] using ih hrest

/-! ## Claims -/

/-- Claim C1: for every resolve call whose connection descriptors carry no
literal uri, `composeUri` builds the URI as `mongodb://` + auth prefix +
comma-joined `host:port` list in descriptor order + `/` + first database +
`?`-prefixed params; in particular one descriptor
(localhost, 27017, test, no credential) yields exactly
`mongodb://localhost:27017/test`, and two descriptors (a:27017, b:27018,
both database test) with credential u/p yield exactly
`mongodb://u:p@a:27017,b:27018/test`. -/
theorem claim_C1_composeUri_shape :
    (∀ (conns : List StrMap) (cred : Option StrMap) (db : String),
      (∀ c ∈ conns, getUri c = none) →
      databaseFold conns = some db → 0 < db.length →
      composeUri conns cred =
        some ("mongodb://" ++ authPart cred ++ hostsPart conns ++ "/" ++ db ++
          paramsPart conns cred)) ∧
    composeUri [localhostConn] none = some "mongodb://localhost:27017/test" ∧
    composeUri [connA, connB] (some credUP) = some "mongodb://u:p@a:27017,b:27018/test" := by
  refine ⟨fun conns cred db hnone hdb hlen => ?_, by decide, by decide⟩
  simp only [composeUri, firstTruthyUri_eq_none conns hnone, hdb, if_pos hlen]
  simp [String.append_assoc]

/-- Witness for C1: the general shape statement applied to the single
localhost descriptor yields the documented literal URI. -/
theorem claim_C1_witness :
    composeUri [localhostConn] none =
      some ("mongodb://" ++ authPart none ++ hostsPart [localhostConn] ++ "/" ++ "test" ++
        paramsPart [localhostConn] none) :=
  claim_C1_composeUri_shape.1 [localhostConn] none "test" (by decide) (by decide) (by decide)

/-- Claim C2: validation fails with `NO_CONNECTION` for a null or empty
descriptor list; otherwise, per descriptor in order, a non-null uri makes
the descriptor valid regardless of other fields, and without a uri the
checks are `NO_HOST` (null host), then `NO_PORT` (port 0), then
`NO_DATABASE` (null database); the first such error is what resolve
reports. -/
theorem claim_C2_validation :
    validateConnections none = some ConfigErrCode.NO_CONNECTION ∧
    validateConnections (some []) = some ConfigErrCode.NO_CONNECTION ∧
    (∀ c : StrMap, (getUri c).isSome → validateConnection c = none) ∧
    (∀ c : StrMap, getUri c = none →
      validateConnection c =
        (if getHost c = none then some ConfigErrCode.NO_HOST
         else if getPort c = 0 then some ConfigErrCode.NO_PORT
         else if getDatabase c = none then some ConfigErrCode.NO_DATABASE
         else none)) ∧
    (∀ (pre : List StrMap) (c : StrMap) (post : List StrMap) (e : ConfigErrCode)
        (cred : Option StrMap),
      (∀ d ∈ pre, validateConnection d = none) →
      validateConnection c = some e →
      validateConnections (some (pre ++ c :: post)) = some e ∧
      resolveOutcome (pre ++ c :: post) cred = .err e) := by
  refine ⟨rfl, rfl, ?_, ?_, ?_⟩
  · intro c h
    simp [validateConnection, h]
  · intro c h
    simp [validateConnection, h]
  · intro pre c post e cred hpre hc
    have hfind := findSome?_validate_first pre c post e hpre hc
    have hval : validateConnections (some (pre ++ c :: post)) = some e := by
      simp [validateConnections, hfind]
    exact ⟨hval, by simp [resolveOutcome, hval]⟩

/-- Witness for C2: a valid first descriptor followed by a host-only
descriptor makes resolve report `NO_PORT`. -/
theorem claim_C2_witness :
    validateConnections (some ([localhostConn] ++ [("host", "h")] :: [])) =
      some ConfigErrCode.NO_PORT ∧
    resolveOutcome ([localhostConn] ++ [("host", "h")] :: []) none =
      .err ConfigErrCode.NO_PORT :=
  claim_C2_validation.2.2.2.2 [localhostConn] [("host", "h")] [] ConfigErrCode.NO_PORT
    none (by decide) (by decide)

/-- Claim C3: when some descriptor carries a literal (truthy) uri,
`composeUri` returns the uri of the first such descriptor unmodified,
ignoring all other descriptors and the credential. -/
theorem claim_C3_literal_uri :
    ∀ (pre : List StrMap) (c : StrMap) (post : List StrMap) (u : String)
      (cred cred' : Option StrMap),
      (∀ d ∈ pre, getUri d = none ∨ getUri d = some "") →
      getUri c = some u → u ≠ "" →
      composeUri (pre ++ c :: post) cred = some u ∧
      composeUri (pre ++ c :: post) cred = composeUri (pre ++ c :: post) cred' := by
  intro pre c post u cred cred' hpre hc hu
  have h1 : composeUri (pre ++ c :: post) cred = some u := by
    simp [composeUri, firstTruthyUri_first pre c post u hpre hc hu]
  have h2 : composeUri (pre ++ c :: post) cred' = some u := by
    simp [composeUri, firstTruthyUri_first pre c post u hpre hc hu]
  exact ⟨h1, h1.trans h2.symm⟩

/-- Witness for C3: a non-uri descriptor followed by a uri descriptor:
the literal uri wins over the later descriptor and the credential. -/
theorem claim_C3_witness :
    composeUri [localhostConn, [("uri", "mongodb://x")], connA] (some credUP) =
      some "mongodb://x" ∧
    composeUri [localhostConn, [("uri", "mongodb://x")], connA] (some credUP) =
      composeUri [localhostConn, [("uri", "mongodb://x")], connA] none :=
  claim_C3_literal_uri [localhostConn] [("uri", "mongodb://x")] [connA] "mongodb://x"
    (some credUP) none (by decide) (by decide) (by decide)

/-- Counterexample to C10: for the descriptor whose uri is the empty
string (host, port and database all missing), validation accepts it, yet
resolve does not return a composed string: the database fold yields null
and reading `database.length` throws, modelled as the crash outcome. -/
theorem claim_C10_counterexample :
    validateConnections (some [emptyUriConn]) = none ∧
    resolveOutcome [emptyUriConn] none = ResolveOutcome.crash := by
  exact ⟨by decide, by decide⟩

/-- Claim C10 as amended: validation accepts the empty-string uri (its
check compares against null) and URI composition skips it (its check is
truthiness) and falls through to host-based assembly, but with every
database missing the database fold is null, so reading its length throws
and resolve crashes instead of succeeding. -/
theorem claim_C10_empty_uri_crash :
    validateConnection emptyUriConn = none ∧
    firstTruthyUri [emptyUriConn] = none ∧
    databaseFold [emptyUriConn] = none ∧
    composeUri [emptyUriConn] none = none ∧
    resolveOutcome [emptyUriConn] none = ResolveOutcome.crash := by
  exact ⟨by decide, by decide, by decide, by decide, by decide⟩

/-- Claim C4: the skip clause is emitted if and only if the resolved skip
is ≥ 0 (with -1 as the default when paging or skip is absent), and a
limit clause is always emitted, equal to the caller's take when supplied
and to the configured max page size otherwise; with skip=0, take=2 over 5
matching documents the page holds exactly 2 items, and with skip=4,
take=2 exactly 1. -/
theorem claim_C4_paging :
    (∀ (paging : Option PagingParams) (maxPageSize : Int),
      (pageStatement paging maxPageSize).skipClause =
        (if 0 ≤ (paging.getD {}).getSkip (-1)
         then some ((paging.getD {}).getSkip (-1)) else none) ∧
      (pageStatement paging maxPageSize).limitClause =
        some ((paging.getD {}).getTake maxPageSize)) ∧
    (∀ maxPageSize : Int, (pageStatement none maxPageSize).skipClause = none) ∧
    (∀ (t : Option Int) (tot : Bool) (maxPageSize : Int),
      (pageStatement (some { skip := none, take := t, total := tot }) maxPageSize).skipClause
        = none) ∧
    (∀ (p : PagingParams) (t maxPageSize : Int),
      p.take = some t → p.getTake maxPageSize = t) ∧
    (∀ (p : PagingParams) (maxPageSize : Int),
      p.take = none → p.getTake maxPageSize = maxPageSize) ∧
    okPageSize (getPageByFilter fiveDocs (fun _ => true)
      (some { skip := some 0, take := some 2, total := false }) 100) = 2 ∧
    okPageSize (getPageByFilter fiveDocs (fun _ => true)
      (some { skip := some 4, take := some 2, total := false }) 100) = 1 := by
  refine ⟨fun paging maxPageSize => ⟨rfl, rfl⟩, fun _ => rfl, ?_, ?_, ?_, by decide, by decide⟩
  · intro t tot maxPageSize
    cases t <;> rfl
  · intro p t maxPageSize h
    simp [PagingParams.getTake, h]
  · intro p maxPageSize h
    simp [PagingParams.getTake, h]

/-- Witness for C4: a supplied take of 7 is the emitted limit, an absent
take falls back to the max page size of 100. -/
theorem claim_C4_witness :
    PagingParams.getTake { skip := none, take := some 7, total := false } 100 = 7 ∧
    PagingParams.getTake { skip := none, take := none, total := false } 100 = 100 :=
  ⟨claim_C4_paging.2.2.2.1 { skip := none, take := some 7, total := false } 7 100 rfl,
   claim_C4_paging.2.2.2.2.1 { skip := none, take := none, total := false } 100 rfl⟩

/-- Claim C5: with `paging.total` true the count query over the same
filter is issued exactly when the page query succeeded, and the page then
carries the matching-document count as its total; a count failure fails
the whole call with that error, discarding the fetched items; with
`paging.total` false no count query is issued and the page carries no
total. -/
theorem claim_C5_total_count :
    ∀ (m : ModelState) (pred : StrMap → Bool) (paging : PagingParams) (maxPageSize : Int),
      (paging.total = true →
        (∀ e, m.findErr = some e →
          getPageByFilter m pred (some paging) maxPageSize = (.error e, false)) ∧
        (m.findErr = none →
          (getPageByFilter m pred (some paging) maxPageSize).2 = true ∧
          (∀ e, m.countErr = some e →
            (getPageByFilter m pred (some paging) maxPageSize).1 = .error e) ∧
          (m.countErr = none →
            (getPageByFilter m pred (some paging) maxPageSize).1 =
              .ok { pageData := pageItems m pred (some paging) maxPageSize,
                    total := some (m.docs.filter pred).length }))) ∧
      (paging.total = false →
        (getPageByFilter m pred (some paging) maxPageSize).2 = false ∧
        (m.findErr = none →
          (getPageByFilter m pred (some paging) maxPageSize).1 =
            .ok { pageData := pageItems m pred (some paging) maxPageSize,
                  total := none })) := by
  intro m pred paging maxPageSize
  constructor
  · intro htot
    constructor
    · intro e he
      simp [getPageByFilter, execStatement, he]
    · intro hf
      refine ⟨?_, ?_, ?_⟩
      · cases hc : m.countErr <;>
          simp [getPageByFilter, execStatement, execCount, hf, hc, htot]
      · intro e hc
        simp [getPageByFilter, execStatement, execCount, hf, hc, htot]
      · intro hc
        simp [getPageByFilter, execStatement, execCount, hf, hc, htot, pageItems]
  · intro htot
    constructor
    · cases hf : m.findErr <;>
        simp [getPageByFilter, execStatement, hf, htot]
    · intro hf
      simp [getPageByFilter, execStatement, hf, htot, pageItems]

/-- Witness for C5: over the five-document collection with total
requested, the count query is issued and the page total is 5. -/
theorem claim_C5_witness :
    (getPageByFilter fiveDocs (fun _ => true)
        (some { skip := none, take := none, total := true }) 100).2 = true ∧
    (getPageByFilter fiveDocs (fun _ => true)
        (some { skip := none, take := none, total := true }) 100).1 =
      .ok { pageData := pageItems fiveDocs (fun _ => true)
              (some { skip := none, take := none, total := true }) 100,
            total := some (fiveDocs.docs.filter (fun _ => true)).length } := by
  have h := (claim_C5_total_count fiveDocs (fun _ => true)
      { skip := none, take := none, total := true } 100).1 rfl
  have h2 := h.2 rfl
  exact ⟨h2.1, h2.2.2 rfl⟩

/-- Claim C6: for a non-null entity, `create` and `set` strip the `id`
field and store the document under primary key `_id`, equal to the
entity's id when that is non-null and non-empty, and to the freshly
generated key otherwise. -/
theorem claim_C6_id_assignment :
    ∀ (m : ModelState) (it : StrMap) (genId : String),
      mapGet (assignNewItem it genId) "id" = none ∧
      mapGet (assignNewItem it genId) "_id" =
        some (match mapGet it "id" with
              | some s => if s = "" then genId else s
              | none => genId) ∧
      (create m (some it) genId true).2.docs = m.docs ++ [assignNewItem it genId] ∧
      assignNewItem it genId ∈ (set m (some it) genId true).2.docs := by
  intro m it genId
  refine ⟨?_, ?_, rfl, ?_⟩
  · rw [assignNewItem, mapGet_setKV_ne _ _ _ _ (by decide), mapGet_removeKey_self]
  · rw [assignNewItem, mapGet_setKV_self]
    cases h : mapGet it "id" <;> simp [jsOr]
  · simp only [set, convertFromPublic]
    by_cases hany :
        m.docs.any (fun d => mapGet d "_id" = mapGet (assignNewItem it genId) "_id")
    · rw [if_pos hany]
      obtain ⟨d, hd, hcond⟩ := List.any_eq_true.mp hany
      have hc := of_decide_eq_true hcond
      exact List.mem_map.mpr ⟨d, hd, by rw [if_pos hc]⟩
    · rw [if_neg hany]
      exact List.mem_append_right _ (List.mem_singleton.mpr rfl)

/-- Claim C7: null-input handling of the mutations: `set`, `update`,
`updatePartially` and `deleteById` complete with a null result (not an
error) and tolerate an absent callback, while `create` invokes its
callback unconditionally on a null item, so `create` with a null item and
no callback is the one mutation that crashes instead of completing. -/
theorem claim_C7_null_inputs :
    ∀ (m : ModelState) (genId : String),
      create m none genId true = (.delivered none .null, m) ∧
      create m none genId false = (.crashed, m) ∧
      set m none genId true = (.delivered none .null, m) ∧
      set m none genId false = (.silent, m) ∧
      update m none true = (.delivered none .null, m) ∧
      update m none false = (.silent, m) ∧
      (∀ it : StrMap, mapGet it "id" = none →
        update m (some it) true = (.delivered none .null, m) ∧
        update m (some it) false = (.silent, m)) ∧
      (∀ id, updatePartially m id none true = (.delivered none .null, m) ∧
        updatePartially m id none false = (.silent, m)) ∧
      (∀ d : StrMap, updatePartially m none (some d) true = (.delivered none .null, m) ∧
        updatePartially m none (some d) false = (.silent, m)) ∧
      deleteById m none true = (.delivered none .null, m) ∧
      deleteById m none false = (.silent, m) := by
  intro m genId
  refine ⟨rfl, rfl, rfl, rfl, rfl, rfl, ?_, ?_, ?_, rfl, rfl⟩
  · intro it h
    exact ⟨by simp [update, h], by simp [update, h]⟩
  · intro id
    cases id <;> exact ⟨rfl, rfl⟩
  · intro d
    exact ⟨rfl, rfl⟩

/-- Witness for C7: an entity map without an id field makes `update`
complete with a null result with or without a callback. -/
theorem claim_C7_witness :
    update fiveDocs (some [("k", "v")]) true = (.delivered none .null, fiveDocs) ∧
    update fiveDocs (some [("k", "v")]) false = (.silent, fiveDocs) :=
  (claim_C7_null_inputs fiveDocs "GEN").2.2.2.2.2.2.1 [("k", "v")] (by decide)

/-- Claim C8: the default shape-conversion hook serializes a stored
document and renames the driver-native primary-key field `_id` to the
public field `id`, so entities handed to callers carry their key under
`id` and never under `_id` — shown for the hook itself, for the document
`create` delivers, and for every item of a returned data page. -/
theorem claim_C8_id_rename :
    (∀ f : StrMap, convertToPublic (.doc f true) = .doc (toJSONTransform f) false) ∧
    (∀ f : StrMap, mapGet (toJSONTransform f) "_id" = none) ∧
    (∀ (f : StrMap) (v : String), mapGet f "_id" = some v →
      mapGet (toJSONTransform f) "id" = some v) ∧
    (∀ (m : ModelState) (it : StrMap) (genId : String),
      (create m (some it) genId true).1 =
        .delivered none (.doc (toJSONTransform (assignNewItem it genId)) false) ∧
      mapGet (toJSONTransform (assignNewItem it genId)) "id" =
        some (jsOr (mapGet it "id") genId) ∧
      mapGet (toJSONTransform (assignNewItem it genId)) "_id" = none) ∧
    (∀ (m : ModelState) (pred : StrMap → Bool) (paging : Option PagingParams)
        (maxPageSize : Int) (page : DataPage) (flag : Bool),
      getPageByFilter m pred paging maxPageSize = (.ok page, flag) →
      ∀ v ∈ page.pageData, ∀ (g : StrMap) (b : Bool),
        v = .doc g b → mapGet g "_id" = none) := by
  refine ⟨fun f => rfl, toJSONTransform_no_id, toJSONTransform_id, ?_, ?_⟩
  · intro m it genId
    refine ⟨rfl, ?_, toJSONTransform_no_id _⟩
    exact toJSONTransform_id _ _ (by rw [assignNewItem, mapGet_setKV_self])
  · intro m pred paging maxPageSize page flag h v hv g b hvg
    rw [getPageByFilter_pageData m pred paging maxPageSize page flag h] at hv
    simp only [pageItems, List.mem_map] at hv
    obtain ⟨f, _, hf⟩ := hv
    have : JsVal.doc g b = JsVal.doc (toJSONTransform f) false := by
      rw [← hvg, ← hf]; rfl
    have hg : g = toJSONTransform f := (JsVal.doc.injEq _ _ _ _).mp this |>.1
    rw [hg]
    exact toJSONTransform_no_id f

/-- Witness for C8: transforming a concrete stored document moves the key
from `_id` to `id`. -/
theorem claim_C8_witness :
    mapGet (toJSONTransform [("_id", "42"), ("k", "v")]) "id" = some "42" :=
  claim_C8_id_rename.2.2.1 [("_id", "42"), ("k", "v")] "42" (by decide)

/-- Claim C9: `clear` with no bound collection fails immediately with the
collection-not-defined error and touches no state; otherwise it removes
all documents, and a driver failure is wrapped as a `CONNECT_FAILED`
connection error preserving the original cause. -/
theorem claim_C9_clear :
    ∀ (m : ModelState),
      clear none m = (some .collectionNotDefined, m) ∧
      (∀ c, m.removeErr = none → clear (some c) m = (none, { m with docs := [] })) ∧
      (∀ c e, m.removeErr = some e → clear (some c) m = (some (.connectFailed e), m)) := by
  intro m
  refine ⟨rfl, ?_, ?_⟩
  · intro c h
    simp [clear, h]
  · intro c e h
    simp [clear, h]

/-- Witness for C9: clearing the five-document collection empties it, and
a failing driver remove surfaces as `CONNECT_FAILED` with its cause. -/
theorem claim_C9_witness :
    clear (some "dummies") fiveDocs = (none, { fiveDocs with docs := [] }) ∧
    clear (some "dummies") { fiveDocs with removeErr := some "boom" } =
      (some (.connectFailed "boom"), { fiveDocs with removeErr := some "boom" }) :=
  ⟨(claim_C9_clear fiveDocs).2.1 "dummies" rfl,
   (claim_C9_clear { fiveDocs with removeErr := some "boom" }).2.2 "dummies" "boom" rfl⟩

end MongoSpec
